import Mathlib

/-!
Shallow embedding of `src/chart_manager.py` (classes `CandlestickItem` and
`ChartManager`).  Python floats are modelled as `Rat` (the program's numeric
formulas are exact at the rational level), Unix timestamps as `Int`, candle
dictionaries as records of `Option` fields (a `none` field models a missing
dictionary key, whose access raises `KeyError`), and raised Python exceptions
as `Except.error`.
-/

/-- A candle dictionary as passed to `CandlestickItem`: keys `t,o,h,l,c`;
a `none` field models a missing key. -/
structure CandleDict where
  t : Option Int
  o : Option Rat
  h : Option Rat
  l : Option Rat
  c : Option Rat
  deriving DecidableEq

/-- A fully-formed candle (all five keys present). -/
structure Candle where
  t : Int
  o : Rat
  h : Rat
  l : Rat
  c : Rat
  deriving DecidableEq

/-- View a fully-formed candle as the dictionary holding all five keys. -/
def Candle.toDict (cd : Candle) : CandleDict :=
  { t := some cd.t, o := some cd.o, h := some cd.h, l := some cd.l, c := some cd.c }

/-- `d['t']`: raises `KeyError` when the key is absent. -/
def keyT (d : CandleDict) : Except String Int :=
  match d.t with
  | some v => Except.ok v
  | none => Except.error "KeyError: t"

/-- `d['o']`. -/
def keyO (d : CandleDict) : Except String Rat :=
  match d.o with
  | some v => Except.ok v
  | none => Except.error "KeyError: o"

/-- `d['h']`. -/
def keyH (d : CandleDict) : Except String Rat :=
  match d.h with
  | some v => Except.ok v
  | none => Except.error "KeyError: h"

/-- `d['l']`. -/
def keyL (d : CandleDict) : Except String Rat :=
  match d.l with
  | some v => Except.ok v
  | none => Except.error "KeyError: l"

/-- `d['c']`. -/
def keyC (d : CandleDict) : Except String Rat :=
  match d.c with
  | some v => Except.ok v
  | none => Except.error "KeyError: c"

/-- Monadic map over `Except`, modelling a Python list comprehension whose
body may raise (the first raise aborts the whole comprehension). -/
def mapExcept (f : α → Except String β) : List α → Except String (List β)
  | [] => Except.ok []
  | x :: xs =>
    match f x with
    | Except.error e => Except.error e
    | Except.ok y =>
      match mapExcept f xs with
      | Except.error e => Except.error e
      | Except.ok ys => Except.ok (y :: ys)

/-- `np.diff`: adjacent differences of a list of timestamps. -/
def adjDiffs : List Int → List Int
  | a :: b :: rest => (b - a) :: adjDiffs (b :: rest)
  | _ => []

/-- Insert into a sorted list (helper for the sort underlying `np.median`). -/
def insertSorted (x : Int) : List Int → List Int
  | [] => [x]
  | y :: ys => if x ≤ y then x :: y :: ys else y :: insertSorted x ys

/-- Ascending sort of integers (any correct sort gives the list `np.median`
inspects, since sorted permutations of one multiset coincide). -/
def sortInts : List Int → List Int
  | [] => []
  | x :: xs => insertSorted x (sortInts xs)

/-- `np.median` on a nonempty integer array: sort ascending, take the middle
element for odd length, the mean of the two middle elements for even length. -/
def npMedian (diffs : List Int) : Rat :=
  let s := sortInts diffs
  let n := s.length
  if n % 2 = 1 then ((s.getD (n / 2) 0 : Int) : Rat)
  else (((s.getD (n / 2 - 1) 0 + s.getD (n / 2) 0 : Int) : Rat)) / 2

/-- `width_factor = 0.7` from `generatePicture`. -/
def width_factor : Rat := 7 / 10

/-- Pen/brush colours used by the renderer; `PColor.none` models
`mkPen(None)` / `mkBrush(None)` (no outline / no fill). -/
inductive PColor where
  | green
  | red
  | none
  deriving DecidableEq

/-- One painter command recorded into the `QPicture` cache. -/
inductive DrawCmd where
  | line (x1 y1 x2 y2 : Rat) (pen : PColor)
  | rect (left top width height : Rat) (pen : PColor) (brush : PColor)
  deriving DecidableEq

/-- Does the command draw a filled rectangle (a rectangle with a brush)? -/
def DrawCmd.isFilledRect : DrawCmd → Bool
  | .rect _ _ _ _ _ brush => brush ≠ PColor.none
  | _ => false

/-- Is the command a rectangle at all? -/
def DrawCmd.isRect : DrawCmd → Bool
  | .rect _ _ _ _ _ _ => true
  | _ => false

/-- The width computation at the top of `CandlestickItem.generatePicture`
(lines 63-83): median of strictly positive adjacent timestamp differences
times 0.7, capped at `86400 * 5 * 0.7`; daily default `86400 * 0.7` when the
median is unavailable; 0 for no data (dead branch, the empty case returns
earlier). -/
def calcW (data : List CandleDict) : Except String Rat :=
  if data.length > 1 then
    match mapExcept keyT data with
    | Except.error e => Except.error e
    | Except.ok time_stamps =>
      let time_diffs := adjDiffs time_stamps
      let valid_diffs := time_diffs.filter (fun x => 0 < x)
      if 0 < valid_diffs.length then
        Except.ok (min (npMedian valid_diffs * width_factor) (86400 * 5 * width_factor))
      else
        Except.ok (86400 * width_factor)
  else if data.length = 1 then Except.ok (86400 * width_factor)
  else Except.ok 0

/-- The per-candle body of the drawing loop in `generatePicture`
(lines 97-132): two wick segments, then an outlined hollow body for an up
candle, a filled outline-free body for a down candle, or a horizontal tick in
the down colour for a flat candle. -/
def drawCandle (w : Rat) (d : CandleDict) : Except String (List DrawCmd) :=
  match keyT d with
  | Except.error e => Except.error e
  | Except.ok t =>
  match keyO d with
  | Except.error e => Except.error e
  | Except.ok o =>
  match keyH d with
  | Except.error e => Except.error e
  | Except.ok h =>
  match keyL d with
  | Except.error e => Except.error e
  | Except.ok l =>
  match keyC d with
  | Except.error e => Except.error e
  | Except.ok c =>
    let wickPen := if c > o ∨ c = o then PColor.green else PColor.red
    let body_top := max o c
    let body_bottom := min o c
    let wick1 := DrawCmd.line (t : Rat) h (t : Rat) body_top wickPen
    let wick2 := DrawCmd.line (t : Rat) l (t : Rat) body_bottom wickPen
    let rect_left := (t : Rat) - w / 2
    let rect_top := o
    let rect_width := w
    let rect_height := c - o
    if c > o then
      Except.ok [wick1, wick2,
        DrawCmd.rect rect_left rect_top rect_width rect_height PColor.green PColor.none]
    else if c = o then
      Except.ok [wick1, wick2,
        DrawCmd.line rect_left o (rect_left + rect_width) o PColor.red]
    else
      Except.ok [wick1, wick2,
        DrawCmd.rect rect_left rect_top rect_width rect_height PColor.none PColor.red]

/-- `CandlestickItem.generatePicture`: empty data yields an empty picture
(the width variable is never live; its dead branch assigns 0); otherwise the
candle width is computed, then each candle is drawn in order.  Any `KeyError`
raised while reading a candle dictionary propagates (there is no handler in
this method). -/
def generatePicture (data : List CandleDict) : Except String (Rat × List DrawCmd) :=
  if data.isEmpty then Except.ok (0, [])
  else
    match calcW data with
    | Except.error e => Except.error e
    | Except.ok w =>
      match mapExcept (drawCandle w) data with
      | Except.error e => Except.error e
      | Except.ok cmdLists => Except.ok (w, cmdLists.flatten)

/-- `min` of a nonempty Python list of ints (left fold of binary min). -/
def listMinI : List Int → Int
  | [] => 0
  | x :: xs => xs.foldl min x

/-- `max` of a nonempty Python list of ints. -/
def listMaxI : List Int → Int
  | [] => 0
  | x :: xs => xs.foldl max x

/-- `min` of a nonempty Python list of floats. -/
def listMinR : List Rat → Rat
  | [] => 0
  | x :: xs => xs.foldl min x

/-- `max` of a nonempty Python list of floats. -/
def listMaxR : List Rat → Rat
  | [] => 0
  | x :: xs => xs.foldl max x

/-- The body of the `try` block of `CandlestickItem.boundingRect`
(lines 168-199).  Note the width computation here (lines 177-188) has no
fallback branch for `len(data) > 1` with no strictly positive difference: in
that case the Python local `w_factor` is never assigned and line 191 raises
`UnboundLocalError`, modelled as an error. -/
def boundingRectAux (data : List CandleDict) : Except String (Rat × Rat × Rat × Rat) :=
  match mapExcept keyT data with
  | Except.error e => Except.error e
  | Except.ok all_t =>
  match mapExcept keyH data with
  | Except.error e => Except.error e
  | Except.ok all_h =>
  match mapExcept keyL data with
  | Except.error e => Except.error e
  | Except.ok all_l =>
    let min_t := listMinI all_t
    let max_t := listMaxI all_t
    let min_l := listMinR all_l
    let max_h := listMaxR all_h
    let wfRes : Except String Rat :=
      if data.length > 1 then
        let time_diffs := adjDiffs all_t
        let valid_diffs := time_diffs.filter (fun x => 0 < x)
        if 0 < valid_diffs.length then
          Except.ok (min (npMedian valid_diffs * width_factor) (86400 * 5 * width_factor))
        else
          Except.error "UnboundLocalError: w_factor"
      else if data.length = 1 then Except.ok (86400 * width_factor)
      else Except.ok 0
    match wfRes with
    | Except.error e => Except.error e
    | Except.ok w_factor =>
      let bounding_min_t := (min_t : Rat) - w_factor / 2
      let bounding_max_t := (max_t : Rat) + w_factor / 2
      let width := bounding_max_t - bounding_min_t
      let height0 := max_h - min_l
      let height := if height0 < 1 / 1000000000 then 1 else height0
      Except.ok (bounding_min_t, min_l, width, height)

/-- `CandlestickItem.boundingRect`: empty rectangle (`none`) for no data;
otherwise the `try` body runs and any exception it raises is caught and
converted to an empty rectangle.  The result tuple is `(x, y, width, height)`
as passed to `QRectF`. -/
def boundingRect (data : List CandleDict) : Option (Rat × Rat × Rat × Rat) :=
  if data.isEmpty then none
  else
    match boundingRectAux data with
    | Except.ok r => some r
    | Except.error _ => none

/-- A plotted polyline curve: `plot(x=..., y=..., name=...)`. -/
structure Curve where
  xs : List Int
  ys : List Rat
  name : String
  deriving DecidableEq

/-- The price `PlotItem` (row 0): its overlay curves, visible x-range
`(start, end, padding)` set by `setXRange`, y auto-range flag, title and
legend flag. -/
structure PricePlot where
  overlays : List Curve
  xRange : Option (Rat × Rat × Rat)
  yAutoRange : Bool
  title : String
  legend : Bool
  deriving DecidableEq

/-- The volume `PlotItem` (row 1). -/
structure VolumePlot where
  xLinkedToPrice : Bool
  maxHeight : Nat
  yAutoRange : Bool
  deriving DecidableEq

/-- An indicator subplot `PlotItem` (row >= 2) with its single curve. -/
structure SubplotItem where
  row : Nat
  curve : Curve
  yLabel : String
  title : String
  maxHeight : Nat
  xLinkedToPrice : Bool
  yAutoRange : Bool
  deriving DecidableEq

/-- A value of the `indicator_plots` dictionary: either an overlay curve
(`PlotDataItem`) or a subplot (`PlotItem`). -/
inductive PlotRef where
  | overlay (c : Curve)
  | subplot (p : SubplotItem)
  deriving DecidableEq

/-- The volume `BarGraphItem`. -/
structure VolumeBars where
  xs : List Int
  heights : List Rat
  width : Rat
  deriving DecidableEq

/-- The mutable state of a `ChartManager` (the graphics widget's rows are
determined by these fields: the price row exists iff `price_plot` is `some`,
likewise the volume row; subplot rows are the `PlotRef.subplot` entries of
`indicator_plots`). -/
structure ChartState where
  ticker_label : String
  price_plot : Option PricePlot
  volume_plot : Option VolumePlot
  indicator_plots : List (String × PlotRef)
  candlestick_item : Option (List CandleDict)
  volume_item : Option VolumeBars
  main_plot_dates : Option (List Int)
  deriving DecidableEq

/-- Python dict assignment `m[k] = v`: overwrite in place when the key is
present, append otherwise (insertion order preserved). -/
def dictSet (m : List (String × PlotRef)) (k : String) (v : PlotRef) :
    List (String × PlotRef) :=
  if m.any (fun p => p.1 == k) then m.map (fun p => if p.1 == k then (k, v) else p)
  else m ++ [(k, v)]

/-- An input table for `plot_stock_data`: the rows `(t, o, h, l, c, v)` with
timestamps already converted to UTC epoch seconds, plus the two properties
the method validates (index type and presence of the five OHLCV columns). -/
structure OhlcvRow where
  t : Int
  o : Rat
  h : Rat
  l : Rat
  c : Rat
  v : Rat
  deriving DecidableEq

/-- A pandas DataFrame as `plot_stock_data` inspects it. -/
structure DataFrame where
  rows : List OhlcvRow
  isDatetimeIndex : Bool
  hasRequiredCols : Bool
  deriving DecidableEq

/-- `ChartManager.clear_chart`: clears the widget and resets every field. -/
def clear_chart (_st : ChartState) : ChartState :=
  { ticker_label := ""
    price_plot := none
    volume_plot := none
    indicator_plots := []
    candlestick_item := none
    volume_item := none
    main_plot_dates := none }

/-- The volume-bar width computation inside `plot_stock_data`
(lines 362-375): `bar_width` starts at 0 and is only assigned in the
positive-median branch, so it stays 0 when every difference is nonpositive. -/
def volumeBarWidth (dates : List Int) : Rat :=
  if dates.length > 1 then
    let time_diffs := adjDiffs dates
    let valid_diffs := time_diffs.filter (fun x => 0 < x)
    if 0 < valid_diffs.length then
      min (npMedian valid_diffs * width_factor) (86400 * 5 * width_factor)
    else 0
  else if dates.length = 1 then 86400 * width_factor
  else 0

/-- `ChartManager.plot_stock_data`: for empty data, add a placeholder label
and return; otherwise overwrite `ticker_label`, then validate (a failure is
caught, shows an error label and returns); on success build the candle data,
the price plot, the volume plot (x-linked), set the initial x-range with 2%
padding and enable y auto-ranging.  It does not clear prior indicator
handles (the caller is expected to clear first). -/
def plot_stock_data (st : ChartState) (df : DataFrame) (ticker : String) : ChartState :=
  if df.rows.isEmpty then st
  else
    let st1 := { st with ticker_label := ticker }
    if !df.isDatetimeIndex then st1
    else if !df.hasRequiredCols then st1
    else
      let dates := df.rows.map (fun r => r.t)
      let candlestick_data := df.rows.map (fun r =>
        ({ t := some r.t, o := some r.o, h := some r.h, l := some r.l, c := some r.c } :
          CandleDict))
      let volume_values := df.rows.map (fun r => r.v)
      let bar_width := volumeBarWidth dates
      { st1 with
        price_plot := some
          { overlays := []
            xRange := some ((dates.headD 0 : Rat), (dates.getLastD 0 : Rat), 2 / 100)
            yAutoRange := true
            title := ticker ++ " - Price and Indicators"
            legend := true }
        volume_plot := some { xLinkedToPrice := true, maxHeight := 150, yAutoRange := true }
        candlestick_item := some candlestick_data
        volume_item := some { xs := dates, heights := volume_values, width := bar_width }
        main_plot_dates := some dates }

/-- `dates[~values.isnull()]`: the base timestamps at the positions where the
indicator value is present (numpy boolean-mask indexing). -/
def maskFilter : List Int → List (Option Rat) → List Int
  | d :: ds, v :: vs => (if v.isSome then [d] else []) ++ maskFilter ds vs
  | _, _ => []

/-- `values.dropna().values`: the present values in order. -/
def dropNone (values : List (Option Rat)) : List Rat :=
  values.filterMap id

/-- `ChartManager.add_overlay_indicator` (colour and line width do not enter
the state model).  Each precondition violation returns with the state
untouched; otherwise the NaN-filtered curve is drawn on the price plot and
its handle stored under `indicator_id`. -/
def add_overlay_indicator (st : ChartState) (indicator_id : String)
    (values : List (Option Rat)) (name : String) : ChartState :=
  match st.price_plot, st.main_plot_dates with
  | none, _ => st
  | some _, none => st
  | some pp, some dates =>
    if dates.length ≠ values.length then st
    else if values.all (fun v => v.isNone) then st
    else
      let dates_to_plot := maskFilter dates values
      let values_to_plot := dropNone values
      if dates_to_plot.isEmpty then st
      else
        let curve : Curve := { xs := dates_to_plot, ys := values_to_plot, name := name }
        { st with
          price_plot := some { pp with overlays := pp.overlays ++ [curve] }
          indicator_plots := dictSet st.indicator_plots indicator_id (PlotRef.overlay curve) }

/-- `ChartManager.add_subplot_indicator`: same preconditions as the overlay
case; on success a new x-linked subplot row of bounded height is created and
stored under `indicator_id`. -/
def add_subplot_indicator (st : ChartState) (indicator_id : String)
    (values : List (Option Rat)) (name : String) (y_label : String)
    (row_index : Nat) : ChartState :=
  match st.price_plot, st.main_plot_dates with
  | none, _ => st
  | some _, none => st
  | some _, some dates =>
    if dates.length ≠ values.length then st
    else if values.all (fun v => v.isNone) then st
    else
      let dates_to_plot := maskFilter dates values
      let values_to_plot := dropNone values
      if dates_to_plot.isEmpty then st
      else
        let sub : SubplotItem :=
          { row := row_index
            curve := { xs := dates_to_plot, ys := values_to_plot, name := "" }
            yLabel := y_label
            title := name
            maxHeight := 100
            xLinkedToPrice := true
            yAutoRange := true }
        { st with
          indicator_plots := dictSet st.indicator_plots indicator_id (PlotRef.subplot sub) }

/-- `ChartManager.set_view_range`: guarded by `if self.price_plot:`; when the
price plot exists, set its x-range with 1% padding and re-enable y
auto-ranging on the price plot, the volume plot and every subplot (overlay
curves have no independent y range). -/
def set_view_range (st : ChartState) (start_ts end_ts : Rat) : ChartState :=
  match st.price_plot with
  | none => st
  | some pp =>
    { st with
      price_plot := some { pp with xRange := some (start_ts, end_ts, 1 / 100), yAutoRange := true }
      volume_plot := st.volume_plot.map (fun vp => { vp with yAutoRange := true })
      indicator_plots := st.indicator_plots.map (fun p =>
        match p.2 with
        | PlotRef.subplot sp => (p.1, PlotRef.subplot { sp with yAutoRange := true })
        | PlotRef.overlay cv => (p.1, PlotRef.overlay cv)) }

/-- Number of price rows in the layout. -/
def priceRowCount (st : ChartState) : Nat :=
  if st.price_plot.isSome then 1 else 0

/-- Number of volume rows in the layout. -/
def volumeRowCount (st : ChartState) : Nat :=
  if st.volume_plot.isSome then 1 else 0

/-! ### Helper lemmas -/

theorem mapExcept_keyT_toDict (data : List Candle) :
    mapExcept keyT (data.map Candle.toDict) = Except.ok (data.map Candle.t) := by
  induction data with
  | nil => rfl
  | cons a as ih => simp [mapExcept, keyT, Candle.toDict, ih]

theorem drawCandle_toDict_ok (w : Rat) (cd : Candle) :
    ∃ cs, drawCandle w cd.toDict = Except.ok cs := by
  simp only [drawCandle, keyT, keyO, keyH, keyL, keyC, Candle.toDict]
  split
  · exact ⟨_, rfl⟩
  · split
    · exact ⟨_, rfl⟩
    · exact ⟨_, rfl⟩

theorem mapExcept_drawCandle_toDict_ok (w : Rat) (data : List Candle) :
    ∃ css, mapExcept (drawCandle w) (data.map Candle.toDict) = Except.ok css := by
  induction data with
  | nil => exact ⟨[], rfl⟩
  | cons a as ih =>
    obtain ⟨cs, hcs⟩ := drawCandle_toDict_ok w a
    obtain ⟨css, hcss⟩ := ih
    exact ⟨cs :: css, by simp [mapExcept, hcs, hcss]⟩

theorem all_isNone_of_dropNone_nil (values : List (Option Rat)) :
    dropNone values = [] → values.all (fun v => v.isNone) = true := by
  induction values with
  | nil => intro _; rfl
  | cons v vs ih =>
    intro h
    cases v with
    | some x => simp [dropNone] at h
    | none =>
      simp only [dropNone, List.filterMap_cons] at h
      simp [ih h]

theorem maskFilter_zip_dropNone :
    ∀ (dates : List Int) (values : List (Option Rat)), dates.length = values.length →
      (maskFilter dates values).zip (dropNone values) =
        (dates.zip values).filterMap (fun p => p.2.map (fun v => (p.1, v))) := by
  intro dates
  induction dates with
  | nil =>
    intro values h
    cases values with
    | nil => rfl
    | cons v vs => simp at h
  | cons d ds ih =>
    intro values h
    cases values with
    | nil => simp at h
    | cons v vs =>
      have h' : ds.length = vs.length := by simpa using h
      have hih := ih vs h'
      simp only [dropNone] at hih
      cases v with
      | some x => simp [maskFilter, dropNone, List.filterMap_cons, hih]
      | none => simp [maskFilter, dropNone, List.filterMap_cons, hih]

theorem maskFilter_length_eq :
    ∀ (dates : List Int) (values : List (Option Rat)), dates.length = values.length →
      (maskFilter dates values).length = (dropNone values).length := by
  intro dates
  induction dates with
  | nil =>
    intro values h
    cases values with
    | nil => rfl
    | cons v vs => simp at h
  | cons d ds ih =>
    intro values h
    cases values with
    | nil => simp at h
    | cons v vs =>
      have h' : ds.length = vs.length := by simpa using h
      have hih := ih vs h'
      simp only [dropNone] at hih
      cases v with
      | some x => simp [maskFilter, dropNone, List.filterMap_cons, hih]
      | none => simp [maskFilter, dropNone, List.filterMap_cons, hih]

theorem maskFilter_ne_nil :
    ∀ (dates : List Int) (values : List (Option Rat)), dates.length = values.length →
      values.all (fun v => v.isNone) = false → maskFilter dates values ≠ [] := by
  intro dates
  induction dates with
  | nil =>
    intro values h hall
    cases values with
    | nil => simp at hall
    | cons v vs => simp at h
  | cons d ds ih =>
    intro values h hall
    cases values with
    | nil => simp at h
    | cons v vs =>
      have h' : ds.length = vs.length := by simpa using h
      cases v with
      | some x => simp [maskFilter]
      | none =>
        have hall' : vs.all (fun v => v.isNone) = false := by simpa using hall
        simp [maskFilter, ih vs h' hall']

/-! ### Claim theorems -/

/-- Claim C2 (code bug): for a series of two candles with equal timestamps
(every adjacent difference is 0, hence nonpositive), the width computation in
`boundingRect` never assigns `w_factor` (its `len > 1` branch has no fallback
when no strictly positive difference exists), so the `try` body raises
`UnboundLocalError`, which the `except` handler converts to the empty
rectangle — instead of the daily-fallback rectangle the claim prescribes. -/
theorem boundingRect_all_nonpositive_diffs_empty :
    boundingRectAux [Candle.toDict ⟨100, 1, 2, 0, 1⟩, Candle.toDict ⟨100, 1, 2, 0, 1⟩] =
      Except.error "UnboundLocalError: w_factor" ∧
    boundingRect [Candle.toDict ⟨100, 1, 2, 0, 1⟩, Candle.toDict ⟨100, 1, 2, 0, 1⟩] = none := by
  constructor <;>
    norm_num [boundingRect, boundingRectAux, mapExcept, keyT, keyH, keyL, Candle.toDict,
      adjDiffs]

/-- Claim C4 (code bug): a two-candle series with duplicate timestamps makes
`boundingRect` return the empty rectangle (via the unbound `w_factor`
exception swallowed by the handler), so its vertical span covers neither the
candles' highs nor their lows, contradicting the claimed coverage for every
series with at least one candle. -/
theorem boundingRect_dup_timestamps_no_vertical_span :
    boundingRect [Candle.toDict ⟨50, 10, 20, 5, 12⟩, Candle.toDict ⟨50, 11, 18, 6, 9⟩] =
      none := by
  norm_num [boundingRect, boundingRectAux, mapExcept, keyT, keyH, keyL, Candle.toDict,
    adjDiffs]

/-- Claim C7 (counterexample): a candle dictionary missing the key `t` makes
`generatePicture` raise a `KeyError` that propagates to the caller — the
method has no exception handler, so the claim that it never propagates is
false. -/
theorem generatePicture_missing_key_raises :
    generatePicture
        [({ t := none, o := none, h := none, l := none, c := none } : CandleDict)] =
      Except.error "KeyError: t" := by rfl

/-- Claim C7 (amended): `boundingRect` converts every exception of its `try`
body into an empty rectangle and never propagates it, but `generatePicture`
(called from `__init__` and `setData`) has no handler and does propagate an
exception on malformed candle data. -/
theorem renderer_exception_policy :
    (∀ data e, boundingRectAux data = Except.error e → boundingRect data = none) ∧
    (∃ data e, generatePicture data = Except.error e) := by
  constructor
  · intro data e h
    unfold boundingRect
    cases hE : data.isEmpty
    · simp [hE, h]
    · simp [hE]
  · exact ⟨[{ t := none, o := some 1, h := some 2, l := some 0, c := some 1 }],
      "KeyError: t", by rfl⟩

theorem renderer_exception_policy_witness :
    boundingRect
        [({ t := some 5, o := some 1, h := none, l := some 0, c := some 1 } : CandleDict)] =
      none :=
  renderer_exception_policy.1 _ "KeyError: h" (by rfl)

/-- Claim C9: for a non-empty table failing validation (non-datetime index or
a missing OHLCV column) `plot_stock_data` creates no row and raises nothing,
but the ticker label has already been overwritten before validation, so the
state is not left fully unchanged when the ticker differs. -/
theorem plot_invalid_input_overwrites_ticker (st : ChartState) (df : DataFrame)
    (ticker : String) (h1 : df.rows ≠ [])
    (h2 : df.isDatetimeIndex = false ∨ df.hasRequiredCols = false) :
    plot_stock_data st df ticker = { st with ticker_label := ticker } ∧
    (st.ticker_label ≠ ticker → plot_stock_data st df ticker ≠ st) := by
  have hE : df.rows.isEmpty = false := by
    cases hr : df.rows with
    | nil => exact absurd hr h1
    | cons a as => rfl
  have hmain : plot_stock_data st df ticker = { st with ticker_label := ticker } := by
    unfold plot_stock_data
    rcases h2 with h | h
    · simp [hE, h]
    · cases hdt : df.isDatetimeIndex <;> simp [hE, hdt, h]
  refine ⟨hmain, fun hne heq => ?_⟩
  rw [hmain] at heq
  exact hne (congrArg ChartState.ticker_label heq).symm

theorem plot_invalid_input_overwrites_ticker_witness :
    plot_stock_data (clear_chart ⟨"", none, none, [], none, none, none⟩)
        ⟨[⟨0, 1, 2, 0, 1, 5⟩], false, true⟩ "AAPL" =
      { clear_chart ⟨"", none, none, [], none, none, none⟩ with ticker_label := "AAPL" } :=
  (plot_invalid_input_overwrites_ticker _ _ "AAPL" (List.cons_ne_nil _ _) (Or.inl rfl)).1

/-- Claim C10: calling `set_view_range` when no price plot exists is a no-op:
the whole body is guarded by `if self.price_plot:`, so nothing is raised and
no state changes. -/
theorem set_view_range_no_price_plot_noop (st : ChartState) (a b : Rat)
    (h : st.price_plot = none) : set_view_range st a b = st := by
  simp [set_view_range, h]

theorem set_view_range_no_price_plot_noop_witness :
    set_view_range (clear_chart ⟨"x", none, none, [], none, none, none⟩) 0 1 =
      clear_chart ⟨"x", none, none, [], none, none, none⟩ :=
  set_view_range_no_price_plot_noop _ 0 1 rfl

theorem generatePicture_toDict_eval (data : List Candle) (hne : data ≠ []) (w : Rat)
    (hw : calcW (data.map Candle.toDict) = Except.ok w) :
    ∃ cmds, generatePicture (data.map Candle.toDict) = Except.ok (w, cmds) := by
  obtain ⟨css, hcss⟩ := mapExcept_drawCandle_toDict_ok w data
  have hE : (data.map Candle.toDict).isEmpty = false := by
    cases data with
    | nil => exact absurd rfl hne
    | cons a as => rfl
  exact ⟨css.flatten, by simp [generatePicture, hE, hw, hcss]⟩

/-- Claim C1: the candle width computed by `generatePicture` is exactly
`min(0.7 * median(positive adjacent diffs), 0.7 * 5 * 86400)` for a series of
two or more candles with some strictly positive adjacent timestamp
difference; `0.7 * 86400` for a single candle and as the fallback when all
adjacent differences are nonpositive; and 0 for an empty series. -/
theorem generatePicture_width_heuristic (data : List Candle) :
    (data = [] → generatePicture (data.map Candle.toDict) = Except.ok (0, [])) ∧
    (data.length = 1 → ∃ cmds,
      generatePicture (data.map Candle.toDict) = Except.ok ((7 / 10) * 86400, cmds)) ∧
    (2 ≤ data.length →
      ∀ vd, vd = (adjDiffs (data.map Candle.t)).filter (fun x => 0 < x) →
      (vd ≠ [] → ∃ cmds, generatePicture (data.map Candle.toDict) =
        Except.ok (min ((7 / 10) * npMedian vd) ((7 / 10) * (5 * 86400)), cmds)) ∧
      (vd = [] → ∃ cmds, generatePicture (data.map Candle.toDict) =
        Except.ok ((7 / 10) * 86400, cmds))) := by
  have hdaily : (86400 * width_factor : Rat) = (7 / 10) * 86400 := by
    norm_num [width_factor]
  refine ⟨?_, ?_, ?_⟩
  · rintro rfl; rfl
  · intro h1
    obtain ⟨a, rfl⟩ := List.length_eq_one.mp h1
    have hw : calcW ([a].map Candle.toDict) = Except.ok ((7 / 10) * 86400) := by
      simp [calcW, hdaily]
    exact generatePicture_toDict_eval [a] (by simp) _ hw
  · intro h2 vd hvd
    have hne : data ≠ [] := by
      cases data with
      | nil => simp at h2
      | cons a as => exact List.cons_ne_nil a as
    have hlen : (data.map Candle.toDict).length > 1 := by
      simp only [List.length_map]; omega
    have hts := mapExcept_keyT_toDict data
    constructor
    · intro hvdne
      have hpos : 0 < vd.length := List.length_pos.mpr hvdne
      have hw : calcW (data.map Candle.toDict) =
          Except.ok (min ((7 / 10) * npMedian vd) ((7 / 10) * (5 * 86400))) := by
        simp only [calcW, List.length_map, hts]
        rw [if_pos (show 1 < data.length by omega), ← hvd, if_pos hpos]
        congr 1
        congr 1
        · rw [mul_comm]; norm_num [width_factor]
        · norm_num [width_factor]
      exact generatePicture_toDict_eval data hne _ hw
    · intro hvdnil
      have hw : calcW (data.map Candle.toDict) = Except.ok ((7 / 10) * 86400) := by
        simp only [calcW, List.length_map, hts]
        rw [if_pos (show 1 < data.length by omega), ← hvd, hvdnil]
        simp [hdaily]
      exact generatePicture_toDict_eval data hne _ hw

theorem generatePicture_width_heuristic_witness :
    ∃ cmds, generatePicture ([⟨0, 1, 2, 0, 1⟩, ⟨86400, 1, 2, 0, 1⟩].map Candle.toDict) =
      Except.ok (60480, cmds) := by
  obtain ⟨cmds, h⟩ :=
    ((generatePicture_width_heuristic [⟨0, 1, 2, 0, 1⟩, ⟨86400, 1, 2, 0, 1⟩]).2.2
      (by norm_num) [86400] (by norm_num [adjDiffs])).1 (by norm_num)
  exact ⟨cmds, by rw [h]; norm_num [npMedian, sortInts, insertSorted, min_def]⟩

/-- Claim C3: an up candle (`close > open`) is drawn as an outline-only
hollow body and never a filled one; a down candle (`close < open`) is drawn
as a filled outline-free rectangle with top-left `(t - width/2, open)` and
negative height `close - open`; a flat candle (`close == open`) draws no
rectangle, only a horizontal tick at `y = open` over `[t - width/2,
t + width/2]` in the down colour. -/
theorem candle_draw_classification (w : Rat) (cd : Candle) :
    (cd.o < cd.c →
      drawCandle w cd.toDict = Except.ok
        [DrawCmd.line (cd.t : Rat) cd.h (cd.t : Rat) (max cd.o cd.c) PColor.green,
         DrawCmd.line (cd.t : Rat) cd.l (cd.t : Rat) (min cd.o cd.c) PColor.green,
         DrawCmd.rect ((cd.t : Rat) - w / 2) cd.o w (cd.c - cd.o)
           PColor.green PColor.none] ∧
      ∀ cs, drawCandle w cd.toDict = Except.ok cs →
        ∀ cmd ∈ cs, cmd.isFilledRect = false) ∧
    (cd.c < cd.o →
      drawCandle w cd.toDict = Except.ok
        [DrawCmd.line (cd.t : Rat) cd.h (cd.t : Rat) (max cd.o cd.c) PColor.red,
         DrawCmd.line (cd.t : Rat) cd.l (cd.t : Rat) (min cd.o cd.c) PColor.red,
         DrawCmd.rect ((cd.t : Rat) - w / 2) cd.o w (cd.c - cd.o)
           PColor.none PColor.red] ∧
      cd.c - cd.o < 0) ∧
    (cd.c = cd.o →
      drawCandle w cd.toDict = Except.ok
        [DrawCmd.line (cd.t : Rat) cd.h (cd.t : Rat) (max cd.o cd.c) PColor.green,
         DrawCmd.line (cd.t : Rat) cd.l (cd.t : Rat) (min cd.o cd.c) PColor.green,
         DrawCmd.line ((cd.t : Rat) - w / 2) cd.o ((cd.t : Rat) + w / 2) cd.o
           PColor.red] ∧
      ∀ cs, drawCandle w cd.toDict = Except.ok cs →
        ∀ cmd ∈ cs, cmd.isRect = false) := by
  have harith : (cd.t : Rat) - w / 2 + w = (cd.t : Rat) + w / 2 := by ring
  refine ⟨fun hup => ?_, fun hdown => ?_, fun hflat => ?_⟩
  · have heq : drawCandle w cd.toDict = Except.ok
        [DrawCmd.line (cd.t : Rat) cd.h (cd.t : Rat) (max cd.o cd.c) PColor.green,
         DrawCmd.line (cd.t : Rat) cd.l (cd.t : Rat) (min cd.o cd.c) PColor.green,
         DrawCmd.rect ((cd.t : Rat) - w / 2) cd.o w (cd.c - cd.o)
           PColor.green PColor.none] := by
      simp [drawCandle, keyT, keyO, keyH, keyL, keyC, Candle.toDict, hup]
    refine ⟨heq, fun cs hcs => ?_⟩
    rw [heq] at hcs
    obtain rfl : _ = cs := by injection hcs
    intro cmd hcmd
    simp only [List.mem_cons, List.not_mem_nil, or_false] at hcmd
    rcases hcmd with rfl | rfl | rfl <;> rfl
  · have h1 : ¬ (cd.o < cd.c) := not_lt.mpr hdown.le
    have h2 : ¬ (cd.c = cd.o) := hdown.ne
    refine ⟨?_, sub_neg.mpr hdown⟩
    simp [drawCandle, keyT, keyO, keyH, keyL, keyC, Candle.toDict, h1, h2]
  · have h1 : ¬ (cd.o < cd.c) := by rw [hflat]; exact lt_irrefl _
    have heq : drawCandle w cd.toDict = Except.ok
        [DrawCmd.line (cd.t : Rat) cd.h (cd.t : Rat) (max cd.o cd.c) PColor.green,
         DrawCmd.line (cd.t : Rat) cd.l (cd.t : Rat) (min cd.o cd.c) PColor.green,
         DrawCmd.line ((cd.t : Rat) - w / 2) cd.o ((cd.t : Rat) + w / 2) cd.o
           PColor.red] := by
      rw [← harith]
      simp [drawCandle, keyT, keyO, keyH, keyL, keyC, Candle.toDict, h1, hflat]
    refine ⟨heq, fun cs hcs => ?_⟩
    rw [heq] at hcs
    obtain rfl : _ = cs := by injection hcs
    intro cmd hcmd
    simp only [List.mem_cons, List.not_mem_nil, or_false] at hcmd
    rcases hcmd with rfl | rfl | rfl <;> rfl

theorem candle_draw_classification_witness :
    drawCandle 10 (Candle.toDict ⟨0, 1, 3, 0, 2⟩) = Except.ok
      [DrawCmd.line ((0 : Int) : Rat) 3 ((0 : Int) : Rat) (max 1 2) PColor.green,
       DrawCmd.line ((0 : Int) : Rat) 0 ((0 : Int) : Rat) (min 1 2) PColor.green,
       DrawCmd.rect (((0 : Int) : Rat) - 10 / 2) 1 10 (2 - 1)
         PColor.green PColor.none] :=
  ((candle_draw_classification 10 ⟨0, 1, 3, 0, 2⟩).1 (by norm_num)).1

/-- Claim C5: each precondition violation of `add_overlay_indicator` and
`add_subplot_indicator` — missing price plot, series length differing from
the stored base timestamp domain length, all-NaN series, or nothing left
after dropping NaNs — returns normally and leaves the state (rows, handle
map, base domain) exactly as it was. -/
theorem add_indicator_precondition_noop (st : ChartState)
    (indicator_id name y_label : String) (row_index : Nat)
    (values : List (Option Rat)) :
    (st.price_plot = none →
      add_overlay_indicator st indicator_id values name = st ∧
      add_subplot_indicator st indicator_id values name y_label row_index = st) ∧
    (∀ dates, st.main_plot_dates = some dates → dates.length ≠ values.length →
      add_overlay_indicator st indicator_id values name = st ∧
      add_subplot_indicator st indicator_id values name y_label row_index = st) ∧
    (values.all (fun v => v.isNone) = true →
      add_overlay_indicator st indicator_id values name = st ∧
      add_subplot_indicator st indicator_id values name y_label row_index = st) ∧
    (dropNone values = [] →
      add_overlay_indicator st indicator_id values name = st ∧
      add_subplot_indicator st indicator_id values name y_label row_index = st) := by
  have hall : values.all (fun v => v.isNone) = true →
      add_overlay_indicator st indicator_id values name = st ∧
      add_subplot_indicator st indicator_id values name y_label row_index = st := by
    intro hA
    cases hpp : st.price_plot with
    | none =>
      constructor <;> simp [add_overlay_indicator, add_subplot_indicator, hpp]
    | some pp =>
      cases hd : st.main_plot_dates with
      | none =>
        constructor <;> simp [add_overlay_indicator, add_subplot_indicator, hpp, hd]
      | some dates =>
        by_cases hl : dates.length = values.length
        · constructor <;>
            simp [add_overlay_indicator, add_subplot_indicator, hpp, hd, hl, hA]
        · constructor <;>
            simp [add_overlay_indicator, add_subplot_indicator, hpp, hd, hl]
  refine ⟨?_, ?_, hall, fun hD => hall (all_isNone_of_dropNone_nil values hD)⟩
  · intro hpp
    constructor <;> simp [add_overlay_indicator, add_subplot_indicator, hpp]
  · intro dates hd hlen
    cases hpp : st.price_plot with
    | none =>
      constructor <;> simp [add_overlay_indicator, add_subplot_indicator, hpp]
    | some pp =>
      constructor <;> simp [add_overlay_indicator, add_subplot_indicator, hpp, hd, hlen]

theorem add_indicator_precondition_noop_witness :
    add_overlay_indicator (clear_chart ⟨"", none, none, [], none, none, none⟩)
        "sma" [some 1] "SMA" =
      clear_chart ⟨"", none, none, [], none, none, none⟩ :=
  ((add_indicator_precondition_noop _ "sma" "SMA" "y" 2 [some 1]).1 rfl).1

/-- Claim C6: when the preconditions hold, both indicator methods drop
missing entries pairwise by position: the drawn curve is exactly the non-NaN
values paired with the base timestamps at the same positions, in order. -/
theorem add_indicator_positional_filter (st : ChartState) (pp : PricePlot)
    (dates : List Int) (values : List (Option Rat))
    (indicator_id name y_label : String) (row_index : Nat)
    (hpp : st.price_plot = some pp) (hd : st.main_plot_dates = some dates)
    (hlen : dates.length = values.length)
    (hnn : values.all (fun v => v.isNone) = false) :
    (maskFilter dates values).zip (dropNone values) =
      (dates.zip values).filterMap (fun p => p.2.map (fun v => (p.1, v))) ∧
    (maskFilter dates values).length = (dropNone values).length ∧
    add_overlay_indicator st indicator_id values name =
      { st with
        price_plot := some { pp with overlays :=
          pp.overlays ++ [⟨maskFilter dates values, dropNone values, name⟩] }
        indicator_plots := dictSet st.indicator_plots indicator_id
          (PlotRef.overlay ⟨maskFilter dates values, dropNone values, name⟩) } ∧
    add_subplot_indicator st indicator_id values name y_label row_index =
      { st with
        indicator_plots := dictSet st.indicator_plots indicator_id
          (PlotRef.subplot ⟨row_index, ⟨maskFilter dates values, dropNone values, ""⟩,
            y_label, name, 100, true, true⟩) } := by
  have hne := maskFilter_ne_nil dates values hlen hnn
  have hEm : (maskFilter dates values).isEmpty = false := by
    cases hm : maskFilter dates values with
    | nil => exact absurd hm hne
    | cons a as => rfl
  refine ⟨maskFilter_zip_dropNone dates values hlen,
    maskFilter_length_eq dates values hlen, ?_, ?_⟩
  · simp [add_overlay_indicator, hpp, hd, hlen, hnn, hEm]
  · simp [add_subplot_indicator, hpp, hd, hlen, hnn, hEm]

/-- The base state used to exercise the 5-point positional-filter scenario. -/
def demoPricePlot : PricePlot :=
  { overlays := [], xRange := none, yAutoRange := true, title := "", legend := true }

/-- A `ChartState` with a price plot and a 5-point base timestamp domain. -/
def demoBaseState : ChartState :=
  { ticker_label := "DEMO"
    price_plot := some demoPricePlot
    volume_plot := none
    indicator_plots := []
    candlestick_item := none
    volume_item := none
    main_plot_dates := some [10, 20, 30, 40, 50] }

theorem add_indicator_positional_filter_witness :
    (maskFilter [10, 20, 30, 40, 50] [some 1, none, some 3, none, some 5]).zip
        (dropNone [some 1, none, some 3, none, some 5]) =
      [(10, 1), (30, 3), (50, 5)] := by
  have h := (add_indicator_positional_filter demoBaseState demoPricePlot
    [10, 20, 30, 40, 50] [some 1, none, some 3, none, some 5] "sma3" "SMA3" "y" 2
    rfl rfl rfl rfl).1
  rw [h]
  simp

/-- Claim C8: `clear_chart` followed by `plot_stock_data` on a valid
non-empty table always yields exactly one price row, exactly one volume row,
and an empty indicator-handle map, whatever the prior state; and
`clear_chart` is idempotent. -/
theorem clear_then_plot_base_rows (st : ChartState) (df : DataFrame) (ticker : String)
    (h1 : df.rows ≠ []) (h2 : df.isDatetimeIndex = true)
    (h3 : df.hasRequiredCols = true) :
    priceRowCount (plot_stock_data (clear_chart st) df ticker) = 1 ∧
    volumeRowCount (plot_stock_data (clear_chart st) df ticker) = 1 ∧
    (plot_stock_data (clear_chart st) df ticker).indicator_plots = [] ∧
    clear_chart (clear_chart st) = clear_chart st := by
  have hE : df.rows.isEmpty = false := by
    cases hr : df.rows with
    | nil => exact absurd hr h1
    | cons a as => rfl
  refine ⟨?_, ?_, ?_, rfl⟩ <;>
    simp [plot_stock_data, clear_chart, priceRowCount, volumeRowCount, hE, h2, h3]

theorem clear_then_plot_base_rows_witness :
    priceRowCount
      (plot_stock_data (clear_chart ⟨"", none, none, [], none, none, none⟩)
        ⟨[⟨0, 1, 2, 0, 1, 5⟩], true, true⟩ "MSFT") = 1 :=
  (clear_then_plot_base_rows _ _ "MSFT" (List.cons_ne_nil _ _) rfl rfl).1

example : generatePicture [] = Except.ok (0, []) := by rfl

example :
    calcW [Candle.toDict ⟨0, 1, 2, 0, 1⟩, Candle.toDict ⟨86400, 1, 2, 0, 1⟩] =
      Except.ok 60480 := by
  norm_num [calcW, mapExcept, keyT, Candle.toDict, adjDiffs, npMedian, sortInts,
    insertSorted, width_factor]

example :
    boundingRect [Candle.toDict ⟨100, 1, 2, 0, 1⟩, Candle.toDict ⟨100, 1, 2, 0, 1⟩] =
      none := by
  norm_num [boundingRect, boundingRectAux, mapExcept, keyT, keyH, keyL, Candle.toDict,
    adjDiffs]

example :
    boundingRect [Candle.toDict ⟨0, 1, 2, 0, 1⟩] =
      some (-30240, 0, 60480, 2) := by
  norm_num [boundingRect, boundingRectAux, mapExcept, keyT, keyH, keyL, Candle.toDict,
    adjDiffs, listMinI, listMaxI, listMinR, listMaxR, width_factor]
